import Mathlib

/-!
Shallow embedding of the `sygma` bridge pallet (`src/bridge/src/lib.rs`,
module `pallet`) and verification of its specification claims.

The pallet's storage items are `DepositCounts : DepositNonce`,
`IsPaused : bool`, `MpcKey : [u8; 32]` and
`UsedNonces : DoubleMap DomainID U256 U256`.  Its dispatchables are
`pause_bridge`, `unpause_bridge`, `set_mpc_key`, `deposit`, `retry` and
`execute_proposal`; the private helper `verify` checks an MPC signature.
`deposit`, `retry` and `execute_proposal` are stubs returning
`Error::Unimplemented`, and `verify` returns `false`.

Machine integers (`DomainID = u8`, `DepositNonce = u64`, `U256`) are
modelled as `Nat`: no arithmetic on them is performed by the embedded code,
they are only stored and compared.
-/

namespace SygmaBridge

/-- `DomainID` (`u8` in `sygma_traits`). -/
abbrev DomainID := Nat

/-- `DepositNonce` (`u64` in `sygma_traits`). -/
abbrev DepositNonce := Nat

/-- `ResourceId` (an opaque 32-byte identifier in `sygma_traits`); the
embedded code only stores it. -/
abbrev ResourceId := List Nat

/-- `H256`, a 256-bit hash; the embedded code only carries it into an
event. -/
abbrev H256 := Nat

/-- An account identifier; the embedded code never inspects it. -/
abbrev AccountId := Nat

/-- `MultiAsset` from `xcm`; opaque to the embedded code (`deposit` is a
stub that never inspects its `_asset` argument). -/
abbrev MultiAsset := Nat

/-- `MultiLocation` from `xcm`; opaque to the embedded code (`deposit` is a
stub that never inspects its `_dest` argument). -/
abbrev MultiLocation := Nat

/-- The stored MPC public key: `[u8; 32]`, a 32-byte array. -/
def MpcKeyVal := Fin 32 → Fin 256

instance : DecidableEq MpcKeyVal :=
  inferInstanceAs (DecidableEq (Fin 32 → Fin 256))

/-- The all-zero key, `Default::default()` for `[u8; 32]`. -/
def zeroKey : MpcKeyVal := fun _ => 0

/-- `sp_runtime::traits::Clear::is_clear` on `[u8; 32]` with `ValueQuery`
default: the value equals the default, i.e. every byte is zero. -/
def is_clear (k : MpcKeyVal) : Bool :=
  (List.finRange 32).all fun i => k i == 0

/-- `Proposal` struct of the pallet. -/
structure Proposal where
  origin_domain_id : DomainID
  deposit_nonce : DepositNonce
  resource_id : ResourceId
  data : List Nat
deriving DecidableEq

/-- The pallet's `Error<T>` enum. -/
inductive Error where
  | BadMpcSignature
  | MissingMpcKey
  | MpcKeyNotUpdatable
  | BridgePaused
  | BridgeUnpaused
  | MissingFeeConfig
  | AssetNotBound
  | ProposalAlreadyComplete
  | TransactorFailed
  | Unimplemented
deriving DecidableEq

/-- A `DispatchError`: either `BadOrigin` (from the
`BridgeCommitteeOrigin::ensure_origin` check) or a pallet `Error`. -/
inductive DispatchError where
  | badOrigin
  | module (e : Error)
deriving DecidableEq

/-- The pallet's `Event<T>` enum. -/
inductive Event where
  | Deposit (dest : DomainID) (rid : ResourceId) (nonce : DepositNonce)
      (sender : AccountId) (depositData handlerResponse : List Nat)
  | Retry (txHash : H256)
  | BridgePaused (dest : DomainID)
  | BridgeUnpaused (dest : DomainID)
deriving DecidableEq

/-- The pallet's persistent storage: `DepositCounts`, `IsPaused`, `MpcKey`
(all `ValueQuery`, defaults `0` / `false` / all-zero) and `UsedNonces`
(an `OptionQuery` double map `DomainID → U256 → Option U256`). -/
structure BridgeState where
  depositCounts : DepositNonce
  isPaused : Bool
  mpcKey : MpcKeyVal
  usedNonces : DomainID → Nat → Option Nat

/-- The pallet's compile-time configuration used by the embedded code:
`T::DestDomainID` (the only `Config` constant the implemented
dispatchables read). -/
structure Config where
  destDomainID : DomainID

/-- Result of one dispatchable call: either the new storage and the events
it deposited, or a `DispatchError` (in which case storage is unchanged:
each implemented dispatchable writes only after all its checks pass, and
the stubs are `#[transactional]`, so an error rolls everything back). -/
abbrev CallResult := Except DispatchError (BridgeState × List Event)

/-- The storage after a call: the new storage on success, the original one
on error. -/
def postState (s : BridgeState) (r : CallResult) : BridgeState :=
  match r with
  | .ok (s', _) => s'
  | .error _ => s

/-- `pause_bridge`: ensure the bridge-committee origin, ensure the MPC key
is not clear (else `MissingMpcKey`), set `IsPaused` to `true`, emit
`BridgePaused(T::DestDomainID)`.  `originOk` is the outcome of the
delegated `BridgeCommitteeOrigin::ensure_origin` check. -/
def pause_bridge (c : Config) (originOk : Bool) (s : BridgeState) : CallResult :=
  if !originOk then .error .badOrigin
  else if is_clear s.mpcKey then .error (.module .MissingMpcKey)
  else .ok ({ s with isPaused := true }, [Event.BridgePaused c.destDomainID])

/-- `unpause_bridge`: ensure the bridge-committee origin, ensure the MPC
key is not clear (else `MissingMpcKey`), ensure `IsPaused` is `true` (else
`BridgeUnpaused`), set `IsPaused` to `false`, emit
`BridgeUnpaused(T::DestDomainID)`. -/
def unpause_bridge (c : Config) (originOk : Bool) (s : BridgeState) : CallResult :=
  if !originOk then .error .badOrigin
  else if is_clear s.mpcKey then .error (.module .MissingMpcKey)
  else if !s.isPaused then .error (.module .BridgeUnpaused)
  else .ok ({ s with isPaused := false }, [Event.BridgeUnpaused c.destDomainID])

/-- `set_mpc_key`: ensure the bridge-committee origin, ensure the stored
MPC key is clear (else `MpcKeyNotUpdatable`), store `_key`. -/
def set_mpc_key (c : Config) (originOk : Bool) (s : BridgeState)
    (key : MpcKeyVal) : CallResult :=
  if !originOk then .error .badOrigin
  else if !is_clear s.mpcKey then .error (.module .MpcKeyNotUpdatable)
  else .ok ({ s with mpcKey := key }, [])

/-- `deposit`: a `#[transactional]` stub; every step is a comment in the
source and the body is `Err(Error::<T>::Unimplemented.into())`.  The
origin and both arguments are ignored (`_origin`, and the pallet performs
no origin check here). -/
def deposit (_c : Config) (_s : BridgeState) (_asset : MultiAsset)
    (_dest : MultiLocation) : CallResult :=
  .error (.module .Unimplemented)

/-- Raw effects of a `#[transactional]` dispatchable body, before
rollback: the storage it wrote, the events it deposited, and its
dispatch result (`none` = `Ok`). -/
structure RawOut where
  state : BridgeState
  events : List Event
  result : Option DispatchError

/-- The `#[transactional]` wrapper: on `Ok` the body's writes and events
commit; on `Err` everything rolls back and only the error surfaces. -/
def transactional (_s : BridgeState) (out : RawOut) : CallResult :=
  match out.result with
  | none => .ok (out.state, out.events)
  | some e => .error e

/-- Body of `retry`: deposits the `Retry(hash)` event, then returns
`Err(Error::<T>::Unimplemented.into())`.  The origin is ignored
(`_origin`). -/
def retry_body (_c : Config) (s : BridgeState) (hash : H256) : RawOut :=
  { state := s, events := [Event.Retry hash],
    result := some (.module .Unimplemented) }

/-- `retry`: the `#[transactional]` dispatch of `retry_body`; since the
body always errors, the deposited event is rolled back. -/
def retry (c : Config) (s : BridgeState) (hash : H256) : CallResult :=
  transactional s (retry_body c s hash)

/-- `execute_proposal`: a `#[transactional]` stub; every step is a comment
in the source and the body is `Err(Error::<T>::Unimplemented.into())`. -/
def execute_proposal (_c : Config) (_s : BridgeState)
    (_proposals : List Proposal) (_signature : List Nat) : CallResult :=
  .error (.module .Unimplemented)

/-- The private helper `Pallet::verify`; its body is just `false`. -/
def verify (_proposals : List Proposal) (_signature : List Nat) : Bool :=
  false

/-- The pallet's public call surface, one constructor per dispatchable. -/
inductive Call where
  | SetMpcKey (key : MpcKeyVal)
  | PauseBridge
  | UnpauseBridge
  | Deposit (asset : MultiAsset) (dest : MultiLocation)
  | Retry (hash : H256)
  | ExecuteProposal (proposals : List Proposal) (signature : List Nat)

/-- Dispatch one public call against the storage.  `originOk` is the
outcome of the `BridgeCommitteeOrigin::ensure_origin` check for the
administrative calls; `deposit`, `retry` and `execute_proposal` do not
check the origin. -/
def applyCall (c : Config) (originOk : Bool) (s : BridgeState) :
    Call → CallResult
  | .SetMpcKey key => set_mpc_key c originOk s key
  | .PauseBridge => pause_bridge c originOk s
  | .UnpauseBridge => unpause_bridge c originOk s
  | .Deposit asset dest => deposit c s asset dest
  | .Retry hash => retry c s hash
  | .ExecuteProposal ps sig => execute_proposal c s ps sig

/-- Concrete configuration for witnesses: destination domain 1 (the value
used by the pallet's own mock runtime). -/
def cfg0 : Config := { destDomainID := 1 }

/-- Genesis storage: counter 0, unpaused, clear key, no used nonces. -/
def st0 : BridgeState :=
  { depositCounts := 0, isPaused := false, mpcKey := zeroKey,
    usedNonces := fun _ _ => none }

/-- A concrete non-zero key (every byte `1`). -/
def oneKey : MpcKeyVal := fun _ => 1

/-- Storage with a non-empty MPC key stored. -/
def stKey : BridgeState := { st0 with mpcKey := oneKey }

/-- A concrete proposal for witnesses. -/
def prop0 : Proposal :=
  { origin_domain_id := 2, deposit_nonce := 0, resource_id := [], data := [] }

/-- Storage with a non-empty MPC key stored and the bridge paused. -/
def stPaused : BridgeState := { stKey with isPaused := true }

/-- The all-zero key is clear. -/
theorem is_clear_zeroKey : is_clear zeroKey = true := by decide

/-- Claim C1: in any state whose stored MPC key is non-empty, no public
call — `set_mpc_key`, `pause_bridge`, `unpause_bridge`, `deposit`, `retry`
or `execute_proposal` — successful or failing, authorized or not, changes
the stored MPC key. -/
theorem mpc_key_immutable_once_set (c : Config) (originOk : Bool)
    (s : BridgeState) (call : Call) (h : is_clear s.mpcKey = false) :
    (postState s (applyCall c originOk s call)).mpcKey = s.mpcKey := by
  cases call <;> cases originOk <;>
    by_cases hp : s.isPaused = true <;>
      simp [applyCall, set_mpc_key, pause_bridge, unpause_bridge, deposit,
        retry, retry_body, transactional, execute_proposal, postState, h, hp]

/-- Witness for C1: a concrete non-empty-key state and call. -/
theorem mpc_key_immutable_once_set_witness :
    is_clear stKey.mpcKey = false ∧
    (postState stKey (applyCall cfg0 true stKey Call.PauseBridge)).mpcKey =
      stKey.mpcKey :=
  ⟨by decide,
   mpc_key_immutable_once_set cfg0 true stKey Call.PauseBridge (by decide)⟩

/-- Claim C2: for an authorized caller, `set_mpc_key` succeeds and stores
the given key exactly when the stored key is clear; otherwise it fails
with `MpcKeyNotUpdatable`, whatever key was passed, and the storage is
unchanged. -/
theorem set_mpc_key_exactly_when_clear (c : Config) (s : BridgeState)
    (key : MpcKeyVal) :
    set_mpc_key c true s key =
      (if is_clear s.mpcKey then
        Except.ok ({ s with mpcKey := key }, ([] : List Event))
       else Except.error (DispatchError.module Error.MpcKeyNotUpdatable)) ∧
    postState s (set_mpc_key c true s key) =
      (if is_clear s.mpcKey then { s with mpcKey := key } else s) := by
  by_cases h : is_clear s.mpcKey = true <;>
    simp [set_mpc_key, postState, h]

/-- Claim C3: for an authorized caller, `pause_bridge` fails with
`MissingMpcKey` when the stored key is clear, leaving the pause state
unchanged; when the key is non-empty it succeeds regardless of the current
pause state, sets the pause state to paused and emits `BridgePaused` with
the configured destination domain. -/
theorem pause_bridge_spec (c : Config) (s : BridgeState) :
    pause_bridge c true s =
      (if is_clear s.mpcKey then
        Except.error (DispatchError.module Error.MissingMpcKey)
       else Except.ok ({ s with isPaused := true },
        [Event.BridgePaused c.destDomainID])) ∧
    postState s (pause_bridge c true s) =
      (if is_clear s.mpcKey then s else { s with isPaused := true }) := by
  by_cases h : is_clear s.mpcKey = true <;>
    simp [pause_bridge, postState, h]

/-- Claim C4: for an authorized caller, `unpause_bridge` fails with
`MissingMpcKey` when the stored key is clear; with a non-empty key it
fails with `BridgeUnpaused` when the bridge is already unpaused, and
otherwise succeeds, sets the pause state to unpaused and emits
`BridgeUnpaused`; in both failure cases the pause state is unchanged. -/
theorem unpause_bridge_spec (c : Config) (s : BridgeState) :
    unpause_bridge c true s =
      (if is_clear s.mpcKey then
        Except.error (DispatchError.module Error.MissingMpcKey)
       else if s.isPaused then
        Except.ok ({ s with isPaused := false },
          [Event.BridgeUnpaused c.destDomainID])
       else Except.error (DispatchError.module Error.BridgeUnpaused)) ∧
    postState s (unpause_bridge c true s) =
      (if is_clear s.mpcKey then s
       else if s.isPaused then { s with isPaused := false } else s) := by
  by_cases h : is_clear s.mpcKey = true <;>
    by_cases hp : s.isPaused = true <;>
      simp [unpause_bridge, postState, h, hp]

/-- Claim C5: an unauthorized caller (one the bridge-committee origin
check rejects) gets an authorization error from each of `set_mpc_key`,
`pause_bridge` and `unpause_bridge`, and the whole storage — MPC key,
pause flag, deposit counter, used-nonce map — is untouched. -/
theorem unauthorized_admin_calls_fail_clean (c : Config) (s : BridgeState)
    (key : MpcKeyVal) :
    set_mpc_key c false s key = Except.error DispatchError.badOrigin ∧
    pause_bridge c false s = Except.error DispatchError.badOrigin ∧
    unpause_bridge c false s = Except.error DispatchError.badOrigin ∧
    postState s (set_mpc_key c false s key) = s ∧
    postState s (pause_bridge c false s) = s ∧
    postState s (unpause_bridge c false s) = s := by
  simp [set_mpc_key, pause_bridge, unpause_bridge, postState]

/-- Claim C6, counterexample: with a non-empty MPC key stored and a
signature that does not verify (here the empty one; `verify` rejects
everything), `execute_proposal` does not fail with `BadMpcSignature` — it
fails with `Unimplemented`. -/
theorem execute_proposal_error_counterexample :
    is_clear stKey.mpcKey = false ∧
    verify [prop0] [] = false ∧
    execute_proposal cfg0 stKey [prop0] [] =
      Except.error (DispatchError.module Error.Unimplemented) ∧
    execute_proposal cfg0 stKey [prop0] [] ≠
      Except.error (DispatchError.module Error.BadMpcSignature) := by
  refine ⟨by decide, rfl, rfl, ?_⟩
  simp [execute_proposal]

/-- Claim C6 amended: for every batch and every signature that does not
verify against the stored key, `execute_proposal` fails — with
`Unimplemented`, the whole dispatchable being a stub — applies no
proposal, and leaves the storage (in particular every used-nonce entry)
unchanged. -/
theorem execute_proposal_rejects_without_effect (c : Config)
    (s : BridgeState) (ps : List Proposal) (sig : List Nat)
    (h : verify ps sig = false) :
    execute_proposal c s ps sig =
      Except.error (DispatchError.module Error.Unimplemented) ∧
    postState s (execute_proposal c s ps sig) = s := by
  exact ⟨rfl, rfl⟩

/-- Witness for the amended C6 at a concrete batch and signature. -/
theorem execute_proposal_rejects_without_effect_witness :
    verify [prop0] [] = false ∧
    (execute_proposal cfg0 stKey [prop0] [] =
      Except.error (DispatchError.module Error.Unimplemented) ∧
     postState stKey (execute_proposal cfg0 stKey [prop0] []) = stKey) :=
  ⟨rfl, execute_proposal_rejects_without_effect cfg0 stKey [prop0] [] rfl⟩

/-- Claim C7, counterexample: with the bridge paused, `deposit` does not
fail with `BridgePaused` (nor any of the four errors the claim allows) —
it fails with `Unimplemented`. -/
theorem deposit_error_counterexample :
    stPaused.isPaused = true ∧
    deposit cfg0 stPaused 0 0 =
      Except.error (DispatchError.module Error.Unimplemented) ∧
    deposit cfg0 stPaused 0 0 ≠
      Except.error (DispatchError.module Error.BridgePaused) := by
  refine ⟨rfl, rfl, ?_⟩
  simp [deposit]

/-- Claim C7 amended: for every caller, asset and destination, and
whatever the pause state, `deposit` fails with `Unimplemented` (it never
succeeds and never returns `BridgePaused`, `AssetNotBound`,
`MissingFeeConfig` or `TransactorFailed`), and the storage is
unchanged. -/
theorem deposit_always_unimplemented (c : Config) (s : BridgeState)
    (asset : MultiAsset) (dest : MultiLocation) :
    deposit c s asset dest =
      Except.error (DispatchError.module Error.Unimplemented) ∧
    postState s (deposit c s asset dest) = s := by
  exact ⟨rfl, rfl⟩

/-- Claim C8, counterexample: `retry` does not return `Ok` — at a concrete
hash it returns the `Unimplemented` error, so no `Ok` outcome exists. -/
theorem retry_error_counterexample :
    retry cfg0 st0 5 =
      Except.error (DispatchError.module Error.Unimplemented) ∧
    ¬ ∃ r, retry cfg0 st0 5 = Except.ok r := by
  refine ⟨rfl, ?_⟩
  rintro ⟨r, hr⟩
  simp [retry, retry_body, transactional] at hr

/-- Claim C8 amended: for every caller and hash, `retry` fails with
`Unimplemented`; its body does deposit a `Retry(hash)` event before
erroring, but the `#[transactional]` wrapper rolls it back, so the call
surfaces no event and changes no storage. -/
theorem retry_always_unimplemented (c : Config) (s : BridgeState)
    (hash : H256) :
    retry c s hash =
      Except.error (DispatchError.module Error.Unimplemented) ∧
    (retry_body c s hash).events = [Event.Retry hash] ∧
    postState s (retry c s hash) = s := by
  exact ⟨rfl, rfl, rfl⟩

/-- Claim C9: `deposit`, `retry` and `execute_proposal` return the fixed
`Unimplemented` error on every input, and `verify` returns `false` for
every proposals list and signature. -/
theorem stubs_unimplemented_and_verify_false (c : Config) (s : BridgeState)
    (asset : MultiAsset) (dest : MultiLocation) (hash : H256)
    (ps : List Proposal) (sig : List Nat) :
    deposit c s asset dest =
      Except.error (DispatchError.module Error.Unimplemented) ∧
    retry c s hash =
      Except.error (DispatchError.module Error.Unimplemented) ∧
    execute_proposal c s ps sig =
      Except.error (DispatchError.module Error.Unimplemented) ∧
    verify ps sig = false := by
  exact ⟨rfl, rfl, rfl, rfl⟩

/-- Claim C10: from a state with a clear stored key, an authorized
`set_mpc_key` with the all-zero key succeeds, yet the stored key stays
clear, so a second authorized `set_mpc_key` with any key also succeeds,
and `pause_bridge` / `unpause_bridge` still fail with `MissingMpcKey`
after the zero-key set. -/
theorem zero_key_set_is_ineffective (c : Config) (s : BridgeState)
    (key2 : MpcKeyVal) (h : is_clear s.mpcKey = true) :
    set_mpc_key c true s zeroKey =
      Except.ok ({ s with mpcKey := zeroKey }, ([] : List Event)) ∧
    is_clear zeroKey = true ∧
    set_mpc_key c true { s with mpcKey := zeroKey } key2 =
      Except.ok ({ s with mpcKey := key2 }, ([] : List Event)) ∧
    pause_bridge c true { s with mpcKey := zeroKey } =
      Except.error (DispatchError.module Error.MissingMpcKey) ∧
    unpause_bridge c true { s with mpcKey := zeroKey } =
      Except.error (DispatchError.module Error.MissingMpcKey) := by
  refine ⟨?_, is_clear_zeroKey, ?_, ?_, ?_⟩ <;>
    simp [set_mpc_key, pause_bridge, unpause_bridge, h, is_clear_zeroKey]

/-- Witness for C10 at the genesis state. -/
theorem zero_key_set_is_ineffective_witness :
    is_clear st0.mpcKey = true ∧
    (set_mpc_key cfg0 true st0 zeroKey =
      Except.ok ({ st0 with mpcKey := zeroKey }, ([] : List Event)) ∧
    is_clear zeroKey = true ∧
    set_mpc_key cfg0 true { st0 with mpcKey := zeroKey } oneKey =
      Except.ok ({ st0 with mpcKey := oneKey }, ([] : List Event)) ∧
    pause_bridge cfg0 true { st0 with mpcKey := zeroKey } =
      Except.error (DispatchError.module Error.MissingMpcKey) ∧
    unpause_bridge cfg0 true { st0 with mpcKey := zeroKey } =
      Except.error (DispatchError.module Error.MissingMpcKey)) :=
  ⟨by decide, zero_key_set_is_ineffective cfg0 st0 oneKey (by decide)⟩

end SygmaBridge
